import Mathlib

/-!
Verification of the DRTIO aux-channel protocol engine and satellite-side
command router of the madmax-artiq-zynq firmware, via a shallow embedding of
the relevant Rust sources into Lean 4.

Sources embedded:
- `src/libboard_artiq/src/cxp_ctrl.rs` (CoaXPress control packets, 4x
  duplication majority vote)
- `src/libboard_artiq/src/cxp_packet.rs` (tagged control transactions)
- `src/satman/src/subkernel.rs` (subkernel session state machine)
- `src/satman/src/drtiosat_aux.rs` (satellite aux packet dispatcher)
- `src/runtime/src/rtio_mgt.rs` (payload partitioning, aux mutex)

Machine integers are modelled as `Nat` with explicit `% 2^w` where wrapping
matters; fallible Rust code returns `Except`; the global mutable tag counter
and the satellite manager state are passed explicitly; hardware registers,
the kernel-execution engine and the DMA manager internals are external
collaborators whose interactions are recorded as explicit events or supplied
as parameters.
-/

/- ### cxp_ctrl.rs : constants and errors -/

def CTRL_PACKET_MAXSIZE : Nat := 128

def DATA_MAXSIZE : Nat := CTRL_PACKET_MAXSIZE - 4 * 7

inductive CxpError where
  | CorruptedPacket : CxpError
  | CtrlAckError : Nat → CxpError
  | Io : CxpError
  | LengthOutOfRange : Nat → CxpError
  | TagMismatch : CxpError
  | TimedOut : CxpError
  | UnexpectedReply : CxpError
  | UnknownPacket : Nat → CxpError
deriving DecidableEq, Repr

/- ### cxp_ctrl.rs : read_exact_4x majority voting

`read_exact_4x` fills each output byte from four consecutive received bytes
by the per-bit majority vote `a & b & c | a & b & d | a & c & d | b & c & d`
(Section 9.2.2.1 of CXP-001-2021). -/

def majority_vote (a b c d : Nat) : Nat :=
  a &&& b &&& c ||| a &&& b &&& d ||| a &&& c &&& d ||| b &&& c &&& d

/-- One output byte per 4 received bytes; `none` when the received stream does
not contain a full group of 4 for every requested byte (the Rust `read_u8`
would return an `Io` error). -/
def read_exact_4x : List Nat → Option (List Nat)
  | [] => some []
  | a :: b :: c :: d :: rest => (read_exact_4x rest).map (fun bs => majority_vote a b c d :: bs)
  | _ => none

/- ### cxp_ctrl.rs : received control packets -/

inductive RXCTRLPacket where
  | CtrlReply : Option Nat → Nat → List Nat → RXCTRLPacket -- tag, length, data
  | CtrlDelay : Option Nat → Nat → RXCTRLPacket -- tag, time
  | CtrlAck : Option Nat → RXCTRLPacket -- tag
deriving DecidableEq, Repr

inductive TXCTRLPacket where
  | CtrlRead : Option Nat → Nat → Nat → TXCTRLPacket -- tag, addr, length
  | CtrlWrite : Option Nat → Nat → Nat → List Nat → TXCTRLPacket -- tag, addr, length, data
deriving DecidableEq, Repr

/- ### cxp_packet.rs : tag counter and transactions

The Rust global `static mut TAG: u8` is passed explicitly as a `Nat < 256`;
`wrapping_add(1)` becomes `(tag + 1) % 256`.  The stream of packets returned
by successive `receive_ctrl_packet_timeout` calls is modelled as a list of
`Except CxpError RXCTRLPacket` (an exhausted list is a timeout with no
arriving packet). -/

structure CxpState where
  tag : Nat
deriving DecidableEq, Repr

def increment_tag (s : CxpState) : CxpState :=
  { s with tag := (s.tag + 1) % 256 }

def check_tag (stored : Nat) (tag : Option Nat) : Except CxpError Unit :=
  if tag.isSome ∧ tag ≠ some stored then
    .error .TagMismatch
  else
    .ok ()

/-- `get_ctrl_ack`: wait for a `CtrlAck`, following `CtrlDelay` chains; each
recursive wait consumes the next element of the reply stream. -/
def get_ctrl_ack (stored : Nat) : List (Except CxpError RXCTRLPacket) → Except CxpError Unit
  | [] => .error .TimedOut
  | .error e :: _ => .error e
  | .ok (.CtrlAck tag) :: _ =>
    match check_tag stored tag with
    | .error e => .error e
    | .ok () => .ok ()
  | .ok (.CtrlDelay tag _time) :: rest =>
    match check_tag stored tag with
    | .error e => .error e
    | .ok () => get_ctrl_ack stored rest
  | .ok _ :: _ => .error .UnexpectedReply

/-- `get_ctrl_reply`: wait for a `CtrlReply` of the expected length, following
`CtrlDelay` chains. -/
def get_ctrl_reply (stored : Nat) (expected_length : Nat) :
    List (Except CxpError RXCTRLPacket) → Except CxpError (List Nat)
  | [] => .error .TimedOut
  | .error e :: _ => .error e
  | .ok (.CtrlReply tag length data) :: _ =>
    match check_tag stored tag with
    | .error e => .error e
    | .ok () => if length ≠ expected_length then .error .UnexpectedReply else .ok data
  | .ok (.CtrlDelay tag _time) :: rest =>
    match check_tag stored tag with
    | .error e => .error e
    | .ok () => get_ctrl_reply stored expected_length rest
  | .ok _ :: _ => .error .UnexpectedReply

def check_length (length : Nat) : Except CxpError Unit :=
  if length > DATA_MAXSIZE ∨ length = 0 then
    .error (.LengthOutOfRange length)
  else
    .ok ()

/-- Zero-initialised `[u8; DATA_MAXSIZE]` with `val` copied into its prefix. -/
def pad_data (val : List Nat) : List Nat :=
  val ++ List.replicate (DATA_MAXSIZE - val.length) 0

/-- `write_bytes`: returns the transaction result, the new tag-counter state
and the list of transmitted packets. -/
def write_bytes (s : CxpState) (addr : Nat) (val : List Nat) (with_tag : Bool)
    (replies : List (Except CxpError RXCTRLPacket)) :
    Except CxpError Unit × CxpState × List TXCTRLPacket :=
  match check_length val.length with
  | .error e => (.error e, s, [])
  | .ok () =>
    let tag : Option Nat := if with_tag then some s.tag else none
    let sent := [TXCTRLPacket.CtrlWrite tag addr val.length (pad_data val)]
    match get_ctrl_ack s.tag replies with
    | .error e => (.error e, s, sent)
    | .ok () => (.ok (), if with_tag then increment_tag s else s, sent)

/-- `read_bytes`: returns the bytes read (first `length` bytes of the reply
data), the new tag-counter state and the list of transmitted packets. -/
def read_bytes (s : CxpState) (addr : Nat) (length : Nat) (with_tag : Bool)
    (replies : List (Except CxpError RXCTRLPacket)) :
    Except CxpError (List Nat) × CxpState × List TXCTRLPacket :=
  match check_length length with
  | .error e => (.error e, s, [])
  | .ok () =>
    let tag : Option Nat := if with_tag then some s.tag else none
    let sent := [TXCTRLPacket.CtrlRead tag addr length]
    match get_ctrl_reply s.tag length replies with
    | .error e => (.error e, s, sent)
    | .ok data => (.ok (data.take length), if with_tag then increment_tag s else s, sent)

/- ### drtioaux_proto.rs : payload status (modelled from the spec) -/

/-- Modelled from the spec: `PayloadStatus` marker (first/middle/last/only)
used to chunk large payloads across multiple aux packets; `drtioaux_proto.rs`
is not among the provided sources. A new "first" implicitly resets
accumulation state. -/
inductive PayloadStatus where
  | Middle : PayloadStatus
  | First : PayloadStatus
  | Last : PayloadStatus
  | Only : PayloadStatus
deriving DecidableEq, Repr

/-- Modelled from the spec: builds the marker from the first/last flags of the
chunking loop. -/
def PayloadStatus.from_status : Bool → Bool → PayloadStatus
  | true, true => .Only
  | true, false => .First
  | false, true => .Last
  | false, false => .Middle

/-- Modelled from the spec: a "first" marker opens a logical message. -/
def PayloadStatus.is_first : PayloadStatus → Bool
  | .First => true
  | .Only => true
  | _ => false

/-- Modelled from the spec: a "last" marker closes a logical message. -/
def PayloadStatus.is_last : PayloadStatus → Bool
  | .Last => true
  | .Only => true
  | _ => false

/- ### satman/src/subkernel.rs : session state machine -/

inductive KernelState where
  | Absent : KernelState
  | Loaded : KernelState
  | Running : KernelState
  | MsgAwait : Option Nat → Nat → List Nat → KernelState -- max_time, id, tags
  | MsgSending : KernelState
  | SubkernelAwaitLoad : KernelState
  | SubkernelAwaitFinish : Option Nat → Nat → KernelState -- max_time, id
  | DmaUploading : KernelState
  | DmaPendingPlayback : Nat → Nat → KernelState -- id, timestamp
  | DmaPendingAwait : Nat → Nat → Nat → KernelState -- id, timestamp, max_time
  | DmaAwait : Nat → KernelState -- max_time
  | SubkernelRetrievingException : Nat → KernelState -- destination
deriving DecidableEq, Repr

inductive SubkError where
  | Load : SubkError
  | KernelNotFound : SubkError
  | Unexpected : SubkError
  | NoMessage : SubkError
  | AwaitingMessage : SubkError
  | SubkernelIoError : SubkError
  | DrtioError : SubkError
  | KernelException : SubkError
  | DmaError : SubkError
deriving DecidableEq, Repr

/-- Interkernel message: `count`, sender `id`, payload bytes. -/
structure Message where
  count : Nat
  id : Nat
  data : List Nat
deriving DecidableEq, Repr

inductive OutMessageState where
  | NoMessage : OutMessageState
  | MessageBeingSent : OutMessageState
  | MessageSent : OutMessageState
  | MessageAcknowledged : OutMessageState
deriving DecidableEq, Repr

/-- Modelled from the spec: `Sliceable` is an in-memory buffer plus a read
cursor (`routing.rs` is not among the provided sources); its internals are
only carried along here, never inspected. -/
structure Sliceable where
  destination : Nat
  data : List Nat
  cursor : Nat
deriving DecidableEq, Repr

structure MessageManager where
  out_message : Option Sliceable
  out_state : OutMessageState
  in_queue : List Message
  in_buffer : Option Message
deriving DecidableEq, Repr

structure Session where
  id : Nat
  kernel_state : KernelState
  last_exception : Option Sliceable
  external_exception : Option (List Nat)
  messages : MessageManager
  source : Nat
  subkernels_finished : List (Nat × Option Nat)
deriving DecidableEq, Repr

def Session.running (s : Session) : Bool :=
  match s.kernel_state with
  | .Absent => false
  | .Loaded => false
  | _ => true

structure KernelLibrary where
  library : List Nat
  complete : Bool
deriving DecidableEq, Repr

/-- `BTreeMap<u32, KernelLibrary>` modelled as an association list with
map semantics (`kernels_get`/`kernels_insert`/`kernels_remove`). -/
def Kernels := List (Nat × KernelLibrary)
deriving DecidableEq, Repr

def kernels_get (ks : Kernels) (id : Nat) : Option KernelLibrary :=
  match ks with
  | [] => none
  | (k, v) :: rest => if k = id then some v else kernels_get rest id

def kernels_remove (ks : Kernels) (id : Nat) : Kernels :=
  match ks with
  | [] => []
  | (k, v) :: rest => if k = id then kernels_remove rest id else (k, v) :: kernels_remove rest id

def kernels_insert (ks : Kernels) (id : Nat) (v : KernelLibrary) : Kernels :=
  (id, v) :: kernels_remove ks id

structure SubkernelFinished where
  id : Nat
  with_exception : Bool
  exception_source : Nat
  source : Nat
deriving DecidableEq, Repr

/-- The satellite subkernel manager (the `control : &RefCell<kernel::Control>`
channel to the kernel-execution engine is an external collaborator; messages
sent on it are returned as explicit outputs by the operations below). -/
structure Manager where
  kernels : Kernels
  session : Session
  cache : List (String × List Int)
  last_finished : Option SubkernelFinished
deriving DecidableEq, Repr

def Manager.running (m : Manager) : Bool :=
  m.session.running

/- ### subkernel.rs : MessageManager operations -/

def MessageManager.handle_incoming (mm : MessageManager) (status : PayloadStatus) (id : Nat)
    (length : Nat) (data : List Nat) : MessageManager :=
  let mm := if status.is_first then { mm with in_buffer := none } else mm
  let buf : Message :=
    match mm.in_buffer with
    | some message => { message with data := message.data ++ data.take length }
    | none => { count := data.headD 0, id := id, data := (data.take length).drop 1 }
  if status.is_last then
    { mm with in_buffer := none, in_queue := mm.in_queue ++ [buf] }
  else
    { mm with in_buffer := some buf }

def MessageManager.was_message_acknowledged (mm : MessageManager) : Bool × MessageManager :=
  match mm.out_state with
  | .MessageAcknowledged => (true, { mm with out_state := .NoMessage })
  | _ => (false, mm)

/-- `get_incoming`: remove and return the first queued message with the given
id. -/
def MessageManager.get_incoming (mm : MessageManager) (id : Nat) : Option Message × MessageManager :=
  match extract mm.in_queue with
  | (found, queue) => (found, { mm with in_queue := queue })
where
  extract : List Message → Option Message × List Message
    | [] => (none, [])
    | m :: rest =>
      if m.id = id then (some m, rest)
      else
        match extract rest with
        | (found, queue) => (found, m :: queue)

def Manager.message_handle_incoming (m : Manager) (status : PayloadStatus) (id : Nat)
    (length : Nat) (slice : List Nat) : Manager :=
  if !m.running then m
  else
    { m with
      session :=
        { m.session with messages := m.session.messages.handle_incoming status id length slice } }

/- ### subkernel.rs : Manager::add (kernel binary upload) -/

def manager_add (ks : Kernels) (id : Nat) (status : PayloadStatus) (data : List Nat)
    (data_len : Nat) : Kernels :=
  let ks1 :=
    match kernels_get ks id with
    | some kernel =>
      if kernel.complete || status.is_first then
        kernels_insert (kernels_remove ks id) id { library := [], complete := false }
      else ks
    | none => kernels_insert ks id { library := [], complete := false }
  match kernels_get ks1 id with
  | some kernel =>
    kernels_insert ks1 id { library := kernel.library ++ data.take data_len,
                            complete := status.is_last }
  | none => ks1

def Manager.add (m : Manager) (id : Nat) (status : PayloadStatus) (data : List Nat)
    (data_len : Nat) : Manager :=
  { m with kernels := manager_add m.kernels id status data data_len }

/- ### subkernel.rs : process_external_messages -/

inductive SubkernelStatus where
  | Timeout : SubkernelStatus
deriving DecidableEq, Repr

/-- Messages the manager sends to the kernel-execution engine
(`kernel::Message` variants used by `process_external_messages` and
`check_finished_kernels`). -/
inductive KernelMsg where
  | SubkernelError : SubkernelStatus → KernelMsg
  | SubkernelMsgRecvReply : Nat → KernelMsg -- count
  | SubkernelMsgSent : KernelMsg
  | SubkernelAwaitFinishReply : KernelMsg
  | DmaAwaitRemoteReply : Bool → Nat → Nat → Nat → KernelMsg -- timeout, error, channel, timestamp
deriving DecidableEq, Repr

/-- Packets the manager hands to the router (`router.route`). -/
inductive RoutedPacket where
  | SubkernelExceptionRequest : Nat → Nat → RoutedPacket -- source, destination
deriving DecidableEq, Repr

/-- `Vec::swap_remove(i)`: remove index `i`, moving the last element into its
place. -/
def swap_remove (l : List (Nat × Option Nat)) (i : Nat) : List (Nat × Option Nat) :=
  match l.getLast? with
  | none => l
  | some x => (l.set i x).dropLast

/-- Index of the first entry of `subkernels_finished` whose recorded id is
`id` (the `for … enumerate … break` loop). -/
def find_finished (l : List (Nat × Option Nat)) (id : Nat) : Option (Nat × Option Nat × Nat) :=
  go l 0
where
  go : List (Nat × Option Nat) → Nat → Option (Nat × Option Nat × Nat)
    | [], _ => none
    | (status, exception_source) :: rest, i =>
      if status = id then some (status, exception_source, i) else go rest (i + 1)

/-- `check_finished_kernels`: returns the updated manager, the messages sent
to the kernel-execution engine and the packets handed to the router. -/
def Manager.check_finished_kernels (m : Manager) (id : Nat) (self_destination : Nat) :
    Manager × List KernelMsg × List RoutedPacket :=
  match find_finished m.session.subkernels_finished id with
  | none => (m, [], [])
  | some (_status, exception_source, i) =>
    match exception_source with
    | none =>
      ({ m with
          session :=
            { m.session with
              kernel_state := .Running,
              subkernels_finished := swap_remove m.session.subkernels_finished i } },
        [.SubkernelAwaitFinishReply], [])
    | some destination =>
      ({ m with
          session :=
            { m.session with
              kernel_state := .SubkernelRetrievingException destination,
              external_exception := some [] } },
        [], [.SubkernelExceptionRequest self_destination destination])

structure ProcResult where
  manager : Manager
  to_kernel : List KernelMsg
  routed : List RoutedPacket
  result : Except SubkError Unit
deriving Repr

/-- `process_external_messages`, with the current time `now` (`timer::get_ms`)
passed explicitly.  `pmk` supplies the behaviour of the opaque
`pass_message_to_kernel` interaction with the kernel-execution engine (its
state update and result); the branch that invokes it is the only consumer. -/
def process_external_messages
    (pmk : Manager → Message → List Nat → Manager × Except SubkError Unit)
    (now : Nat) (self_destination : Nat) (m : Manager) : ProcResult :=
  match m.session.kernel_state with
  | .MsgAwait max_time id tags =>
    if (match max_time with | some mt => decide (now > mt) | none => false) then
      { manager := { m with session := { m.session with kernel_state := .Running } },
        to_kernel := [.SubkernelError .Timeout], routed := [], result := .ok () }
    else
      match m.session.messages.get_incoming id with
      | (some message, messages1) =>
        let m1 := { m with
                    session := { m.session with messages := messages1,
                                                kernel_state := .Running } }
        match pmk m1 message tags with
        | (m2, res) =>
          { manager := m2, to_kernel := [.SubkernelMsgRecvReply message.count],
            routed := [], result := res }
      | (none, _) =>
        match m.check_finished_kernels id self_destination with
        | (m1, msgs, routed) =>
          { manager := m1, to_kernel := msgs, routed := routed,
            result := .error .AwaitingMessage }
  | .MsgSending =>
    match m.session.messages.was_message_acknowledged with
    | (true, messages1) =>
      { manager := { m with
                     session := { m.session with messages := messages1,
                                                 kernel_state := .Running } },
        to_kernel := [.SubkernelMsgSent], routed := [], result := .ok () }
    | (false, messages1) =>
      { manager := { m with session := { m.session with messages := messages1 } },
        to_kernel := [], routed := [], result := .error .AwaitingMessage }
  | .SubkernelAwaitFinish max_time id =>
    if (match max_time with | some mt => decide (now > mt) | none => false) then
      { manager := { m with session := { m.session with kernel_state := .Running } },
        to_kernel := [.SubkernelError .Timeout], routed := [], result := .ok () }
    else
      match m.check_finished_kernels id self_destination with
      | (m1, msgs, routed) =>
        { manager := m1, to_kernel := msgs, routed := routed, result := .ok () }
  | .SubkernelRetrievingException _ =>
    { manager := m, to_kernel := [], routed := [], result := .error .AwaitingMessage }
  | .DmaAwait max_time =>
    if now > max_time then
      { manager := { m with session := { m.session with kernel_state := .Running } },
        to_kernel := [.DmaAwaitRemoteReply true 0 0 0], routed := [], result := .ok () }
    else
      { manager := m, to_kernel := [], routed := [], result := .ok () }
  | .DmaPendingAwait _ _ max_time =>
    if now > max_time then
      { manager := { m with session := { m.session with kernel_state := .Running } },
        to_kernel := [.DmaAwaitRemoteReply true 0 0 0], routed := [], result := .ok () }
    else
      { manager := m, to_kernel := [], routed := [], result := .ok () }
  | _ => { manager := m, to_kernel := [], routed := [], result := .ok () }

/- ### satman/src/drtiosat_aux.rs : aux packet dispatcher

A representative subset of `process_aux_packet`, covering the packet types
the claims are about.  The routing table is a function
`destination → rank → hop`; the `forward!` macro's behaviour (hop ≠ 0 ⇒ hand
the packet to a repeater and return) is recorded as a `Forward` event.
Hardware registers (`csr`) and the DMA manager are external collaborators:
their readings/results come in through `HwInputs` and the calls made to them
are recorded as events. -/

inductive AuxPacket where
  | DestinationStatusRequest : Nat → AuxPacket -- destination
  | MonitorRequest : Nat → Nat → Nat → AuxPacket -- destination, channel, probe
  | InjectionRequest : Nat → Nat → Nat → Nat → AuxPacket -- destination, channel, overrd, value
  | DmaAddTraceRequest : Nat → Nat → Nat → PayloadStatus → Nat → List Nat → AuxPacket
      -- source, destination, id, status, length, trace
  | DmaPlaybackRequest : Nat → Nat → Nat → Nat → AuxPacket -- source, destination, id, timestamp
  | SubkernelAddDataRequest : Nat → Nat → PayloadStatus → Nat → List Nat → AuxPacket
      -- destination, id, status, length, data
  | SubkernelMessage : Nat → Nat → Nat → PayloadStatus → Nat → List Nat → AuxPacket
      -- source, destination, id, status, length, data
deriving DecidableEq, Repr

/-- The destination field used by each handler's `forward!` / hop lookup. -/
def AuxPacket.destination : AuxPacket → Nat
  | .DestinationStatusRequest d => d
  | .MonitorRequest d _ _ => d
  | .InjectionRequest d _ _ _ => d
  | .DmaAddTraceRequest _ d _ _ _ _ => d
  | .DmaPlaybackRequest _ d _ _ => d
  | .SubkernelAddDataRequest d _ _ _ _ => d
  | .SubkernelMessage _ d _ _ _ _ => d

inductive AuxReply where
  | DestinationSequenceErrorReply : Nat → AuxReply -- channel
  | DestinationCollisionReply : Nat → AuxReply -- channel
  | DestinationBusyReply : Nat → AuxReply -- channel
  | DestinationOkReply : AuxReply
  | MonitorReply : Nat → AuxReply -- value
  | DmaAddTraceReply : Nat → Nat → Nat → Bool → AuxReply -- source, destination, id, succeeded
  | DmaPlaybackReply : Nat → Bool → AuxReply -- destination, succeeded
  | SubkernelAddDataReply : Bool → AuxReply -- succeeded
  | SubkernelMessageAck : Nat → AuxReply -- destination
deriving DecidableEq, Repr

inductive AuxEvent where
  | Forward : Nat → AuxEvent -- hop the packet was forwarded on
  | Send : AuxReply → AuxEvent -- drtioaux_async::send / router.send of a reply
  | InjectionWrite : Nat → Nat → Nat → AuxEvent -- channel, overrd, value
  | DmaManagerAdd : Nat → Nat → PayloadStatus → Nat → AuxEvent -- source, id, status, length
  | DmaManagerPlayback : Nat → Nat → Nat → AuxEvent -- source, id, timestamp
deriving DecidableEq, Repr

/-- External collaborator inputs: hardware register readings and the results
of the opaque DMA-manager calls. -/
structure HwInputs where
  rtio_errors : Nat
  sequence_error_channel : Nat
  collision_channel : Nat
  busy_channel : Nat
  mon_value : Nat
  dma_add_ok : Bool
  dma_playback_ok : Bool
deriving DecidableEq, Repr

structure SatState where
  rank : Nat
  self_destination : Nat
  kernel_manager : Manager
deriving Repr

/-- `DestinationStatusRequest`'s local reply, driven by the `rtio_error`
register bits. -/
def destination_status_reply (hw : HwInputs) : AuxReply :=
  if hw.rtio_errors % 2 ≠ 0 then .DestinationSequenceErrorReply hw.sequence_error_channel
  else if (hw.rtio_errors / 2) % 2 ≠ 0 then .DestinationCollisionReply hw.collision_channel
  else if (hw.rtio_errors / 4) % 2 ≠ 0 then .DestinationBusyReply hw.busy_channel
  else .DestinationOkReply

def process_aux_packet (routing : Nat → Nat → Nat) (hw : HwInputs) (st : SatState)
    (packet : AuxPacket) : SatState × List AuxEvent :=
  let hop := routing packet.destination st.rank
  match packet with
  | .DestinationStatusRequest destination =>
    if hop = 0 then
      ({ st with self_destination := destination },
        [.Send (destination_status_reply hw)])
    else
      (st, [.Forward hop])
  | .MonitorRequest _destination _channel _probe =>
    if hop ≠ 0 then (st, [.Forward hop])
    else (st, [.Send (.MonitorReply hw.mon_value)])
  | .InjectionRequest _destination channel overrd value =>
    if hop ≠ 0 then (st, [.Forward hop])
    else (st, [.InjectionWrite channel overrd value])
  | .DmaAddTraceRequest source destination id status length _trace =>
    if hop ≠ 0 then (st, [.Forward hop])
    else
      let st1 := { st with self_destination := destination }
      let succeeded := hw.dma_add_ok
      (st1, [.DmaManagerAdd source id status length,
             .Send (.DmaAddTraceReply st1.self_destination source id succeeded)])
  | .DmaPlaybackRequest source _destination id timestamp =>
    if hop ≠ 0 then (st, [.Forward hop])
    else
      if !st.kernel_manager.running then
        (st, [.DmaManagerPlayback source id timestamp,
              .Send (.DmaPlaybackReply source hw.dma_playback_ok)])
      else
        (st, [.Send (.DmaPlaybackReply source false)])
  | .SubkernelAddDataRequest destination id status length data =>
    if hop ≠ 0 then (st, [.Forward hop])
    else
      let st1 := { st with self_destination := destination }
      let st2 := { st1 with kernel_manager := st1.kernel_manager.add id status data length }
      (st2, [.Send (.SubkernelAddDataReply true)])
  | .SubkernelMessage source _destination id status length data =>
    if hop ≠ 0 then (st, [.Forward hop])
    else
      let st1 := { st with
                   kernel_manager :=
                     st.kernel_manager.message_handle_incoming status id length data }
      (st1, [.Send (.SubkernelMessageAck source)])

/- ### runtime/src/rtio_mgt.rs : payload partitioning

`partition_data` walks the payload in chunks of at most
`MASTER_PAYLOAD_MAX_SIZE` bytes (abstracted here as a parameter `M`, since
`drtioaux_proto.rs` with the concrete constant is not among the provided
sources), zero-padding each chunk into a fixed-size slice, tagging it
first/middle/last/only and performing one aux transaction per chunk.  The
loop is embedded with a fuel argument equal to the number of remaining bytes
(each iteration with `M > 0` consumes at least one byte); `none` models a
diverging loop, which cannot happen for `M > 0`. -/

def partition_go (M : Nat) (fuel : Nat) (first : Bool) (data : List Nat) :
    Option (List (List Nat × PayloadStatus × Nat)) :=
  match fuel with
  | 0 => if data.isEmpty then some [] else none
  | fuel + 1 =>
    if data.isEmpty then some []
    else
      let len := if M < data.length then M else data.length
      let last := decide (len = data.length)
      let slice := data.take len ++ List.replicate (M - len) 0
      let status := PayloadStatus.from_status first last
      match partition_go M fuel false (data.drop len) with
      | none => none
      | some rest => some ((slice, status, len) :: rest)

def partition_data (M : Nat) (data : List Nat) :
    Option (List (List Nat × PayloadStatus × Nat)) :=
  partition_go M data.length true data

/-- The sequence of `SubkernelMessage` packets transmitted by
`subkernel_send_message` (one aux transaction per chunk of
`partition_data`). -/
def subkernel_send_message_packets (M : Nat) (master_destination destination id : Nat)
    (message : List Nat) : Option (List AuxPacket) :=
  (partition_data M message).map
    (List.map (fun c =>
      AuxPacket.SubkernelMessage master_destination destination id c.2.1 c.2.2 c.1))

/-- The sequence of `DmaAddTraceRequest` packets transmitted by
`ddma_upload_trace` (one aux transaction per chunk of `partition_data`). -/
def ddma_upload_trace_packets (M : Nat) (master_destination destination id : Nat)
    (trace : List Nat) : Option (List AuxPacket) :=
  (partition_data M trace).map
    (List.map (fun c =>
      AuxPacket.DmaAddTraceRequest master_destination destination id c.2.1 c.2.2 c.1))

/-- Reassembly on the receiving side: append each chunk's first `len` bytes in
order. -/
def reassemble (chunks : List (List Nat × PayloadStatus × Nat)) : List Nat :=
  (chunks.map (fun c => c.1.take c.2.2)).flatten

/-- Feeding every chunk in order into `Manager::add` for the given kernel id
(the receiver side of a subkernel binary upload). -/
def add_all (ks : Kernels) (id : Nat) (chunks : List (List Nat × PayloadStatus × Nat)) :
    Kernels :=
  chunks.foldl (fun acc c => manager_add acc id c.2.1 c.1 c.2.2) ks

/- ### runtime/src/rtio_mgt.rs : the aux-transact mutex

`rtio_mgt.rs` declares a single static `AUX_MUTEX: Mutex<bool>`;
`aux_transact` acquires it (`AUX_MUTEX.async_lock().await`) for every
transaction, whatever the link number. -/

inductive RtioMutex where
  | AUX_MUTEX : RtioMutex
deriving DecidableEq, Repr

/-- The mutex acquired by `aux_transact` for a transaction on link `linkno`:
always the one static `AUX_MUTEX`. -/
def aux_transact_lock (_linkno : Nat) : RtioMutex :=
  RtioMutex.AUX_MUTEX

/- ### Concrete sample states for witnesses and counterexamples -/

def sample_messages : MessageManager :=
  { out_message := none, out_state := .NoMessage,
    in_queue := [{ count := 1, id := 1, data := [2] }], in_buffer := none }

def sample_manager (ks : KernelState) : Manager :=
  { kernels := [],
    session := { id := 1, kernel_state := ks, last_exception := none,
                 external_exception := none, messages := sample_messages,
                 source := 0, subkernels_finished := [] },
    cache := [], last_finished := none }

def sample_pmk : Manager → Message → List Nat → Manager × Except SubkError Unit :=
  fun m _msg _tags => (m, .ok ())

def sample_hw : HwInputs :=
  { rtio_errors := 0, sequence_error_channel := 0, collision_channel := 0,
    busy_channel := 0, mon_value := 0, dma_add_ok := true, dma_playback_ok := true }

def sample_sat (ks : KernelState) : SatState :=
  { rank := 0, self_destination := 3, kernel_manager := sample_manager ks }

/-- Which task (if any) currently holds each static mutex of `rtio_mgt.rs`. -/
def MutexState := RtioMutex → Option Nat

/- ### Theorems -/

/-- Shared helper: the per-bit majority vote returns `v` whenever three of the
four inputs equal `v`, whatever the fourth is. -/
theorem majority_vote_three (v x : Nat) :
    majority_vote x v v v = v ∧ majority_vote v x v v = v ∧
    majority_vote v v x v = v ∧ majority_vote v v v x = v := by
  refine ⟨?_, ?_, ?_, ?_⟩ <;>
    · apply Nat.eq_of_testBit_eq
      intro i
      simp only [majority_vote, Nat.testBit_lor, Nat.testBit_land]
      cases v.testBit i <;> cases x.testBit i <;> decide

/-- Claim C1: for every byte value `v`, if exactly one of the 4 transmitted
duplicate copies is corrupted (to any value, in any of the 4 positions) while
the other 3 copies equal `v`, `read_exact_4x` reconstructs `v` by the per-bit
majority vote `a&b&c | a&b&d | a&c&d | b&c&d`. -/
theorem C1_read_exact_4x_single_corruption (v x : Nat) (_hv : v < 256) (_hx : x < 256) :
    read_exact_4x [x, v, v, v] = some [v] ∧ read_exact_4x [v, x, v, v] = some [v] ∧
    read_exact_4x [v, v, x, v] = some [v] ∧ read_exact_4x [v, v, v, x] = some [v] := by
  have h := majority_vote_three v x
  refine ⟨?_, ?_, ?_, ?_⟩ <;> simp [read_exact_4x]
  exacts [h.1, h.2.1, h.2.2.1, h.2.2.2]

/-- Witness for C1 at the spec's example: three copies `0xFF`, one corrupted
to `0x7F`, in every position. -/
theorem C1_witness :
    255 < 256 ∧ 127 < 256 ∧
    (read_exact_4x [127, 255, 255, 255] = some [255] ∧
     read_exact_4x [255, 127, 255, 255] = some [255] ∧
     read_exact_4x [255, 255, 127, 255] = some [255] ∧
     read_exact_4x [255, 255, 255, 127] = some [255]) :=
  ⟨by decide, by decide,
   C1_read_exact_4x_single_corruption 255 127 (by decide) (by decide)⟩

/-- Claim C8: `check_tag` fails with `TagMismatch` if and only if the reply
carries `some tag` with `tag` different from the stored counter; an untagged
reply is always accepted, so `CtrlAck`/`CtrlReply`/`CtrlDelay` replies without
a tag bypass tag verification entirely. -/
theorem C8_untagged_reply_bypasses_tag_check (stored : Nat) :
    (∀ tag, check_tag stored tag = .error .TagMismatch ↔ ∃ t, tag = some t ∧ t ≠ stored) ∧
    check_tag stored none = .ok () ∧
    (∀ rest, get_ctrl_ack stored (.ok (.CtrlAck none) :: rest) = .ok ()) ∧
    (∀ length data rest,
      get_ctrl_reply stored length (.ok (.CtrlReply none length data) :: rest) = .ok data) ∧
    (∀ time rest,
      get_ctrl_ack stored (.ok (.CtrlDelay none time) :: rest) = get_ctrl_ack stored rest) := by
  refine ⟨?_, ?_, ?_, ?_, ?_⟩
  · intro tag
    cases tag with
    | none => simp [check_tag]
    | some t =>
      by_cases h : t = stored <;> simp [check_tag, h]
  · simp [check_tag]
  · intro rest
    simp [get_ctrl_ack, check_tag]
  · intro length data rest
    simp [get_ctrl_reply, check_tag]
  · intro time rest
    simp [get_ctrl_ack, check_tag]

/-- Claim C2: once tagging is enabled (`with_tag = true`), every control
write/read transaction transmits the current 8-bit tag; after the reply is
accepted the tag is incremented by one wrapping modulo 256; a reply carrying a
tag different from the transmitted tag fails the transaction with
`TagMismatch`; and on any failure the tag counter is unchanged. -/
theorem C2_tag_lifecycle (s : CxpState) (addr : Nat) (val : List Nat) (length : Nat)
    (hw : check_length val.length = .ok ()) (hr : check_length length = .ok ()) :
    (∀ replies, (write_bytes s addr val true replies).2.2 =
        [TXCTRLPacket.CtrlWrite (some s.tag) addr val.length (pad_data val)]) ∧
    (∀ replies, (read_bytes s addr length true replies).2.2 =
        [TXCTRLPacket.CtrlRead (some s.tag) addr length]) ∧
    (∀ replies, (write_bytes s addr val true replies).1 = .ok () →
        (write_bytes s addr val true replies).2.1.tag = (s.tag + 1) % 256) ∧
    (∀ replies bs, (read_bytes s addr length true replies).1 = .ok bs →
        (read_bytes s addr length true replies).2.1.tag = (s.tag + 1) % 256) ∧
    (∀ t rest, t ≠ s.tag →
        (write_bytes s addr val true (.ok (.CtrlAck (some t)) :: rest)).1 =
          .error .TagMismatch) ∧
    (∀ t rest ln dat, t ≠ s.tag →
        (read_bytes s addr length true (.ok (.CtrlReply (some t) ln dat) :: rest)).1 =
          .error .TagMismatch) ∧
    (∀ replies e, (write_bytes s addr val true replies).1 = .error e →
        (write_bytes s addr val true replies).2.1 = s) ∧
    (∀ replies e, (read_bytes s addr length true replies).1 = .error e →
        (read_bytes s addr length true replies).2.1 = s) := by
  refine ⟨?_, ?_, ?_, ?_, ?_, ?_, ?_, ?_⟩
  · intro replies
    simp only [write_bytes, hw]
    cases h : get_ctrl_ack s.tag replies <;> simp [h]
  · intro replies
    simp only [read_bytes, hr]
    cases h : get_ctrl_reply s.tag length replies <;> simp [h]
  · intro replies
    simp only [write_bytes, hw]
    cases h : get_ctrl_ack s.tag replies <;> simp [h, increment_tag]
  · intro replies bs
    simp only [read_bytes, hr]
    cases h : get_ctrl_reply s.tag length replies <;> simp [h, increment_tag]
  · intro t rest ht
    simp [write_bytes, hw, get_ctrl_ack, check_tag, ht]
  · intro t rest ln dat ht
    simp [read_bytes, hr, get_ctrl_reply, check_tag, ht]
  · intro replies e
    simp only [write_bytes, hw]
    cases h : get_ctrl_ack s.tag replies <;> simp [h]
  · intro replies e
    simp only [read_bytes, hr]
    cases h : get_ctrl_reply s.tag length replies <;> simp [h]

/-- Witness for C2 at a concrete transaction: tag counter 255 (so the
increment wraps to 0), a 1-byte write and a 2-byte read. -/
theorem C2_witness :
    check_length ([1] : List Nat).length = .ok () ∧ check_length 2 = .ok () ∧
    ((∀ replies, (write_bytes ⟨255⟩ 0 [1] true replies).2.2 =
        [TXCTRLPacket.CtrlWrite (some 255) 0 ([1] : List Nat).length (pad_data [1])]) ∧
     (∀ replies, (read_bytes ⟨255⟩ 0 2 true replies).2.2 =
        [TXCTRLPacket.CtrlRead (some 255) 0 2]) ∧
     (∀ replies, (write_bytes ⟨255⟩ 0 [1] true replies).1 = .ok () →
        (write_bytes ⟨255⟩ 0 [1] true replies).2.1.tag = (255 + 1) % 256) ∧
     (∀ replies bs, (read_bytes ⟨255⟩ 0 2 true replies).1 = .ok bs →
        (read_bytes ⟨255⟩ 0 2 true replies).2.1.tag = (255 + 1) % 256) ∧
     (∀ t rest, t ≠ 255 →
        (write_bytes ⟨255⟩ 0 [1] true (.ok (.CtrlAck (some t)) :: rest)).1 =
          .error .TagMismatch) ∧
     (∀ t rest ln dat, t ≠ 255 →
        (read_bytes ⟨255⟩ 0 2 true (.ok (.CtrlReply (some t) ln dat) :: rest)).1 =
          .error .TagMismatch) ∧
     (∀ replies e, (write_bytes ⟨255⟩ 0 [1] true replies).1 = .error e →
        (write_bytes ⟨255⟩ 0 [1] true replies).2.1 = ⟨255⟩) ∧
     (∀ replies e, (read_bytes ⟨255⟩ 0 2 true replies).1 = .error e →
        (read_bytes ⟨255⟩ 0 2 true replies).2.1 = ⟨255⟩)) :=
  ⟨by rfl, by rfl, C2_tag_lifecycle ⟨255⟩ 0 [1] 2 (by rfl) (by rfl)⟩

/-- Claim C3: whenever the session is in `MsgAwait` or `SubkernelAwaitFinish`
with a `max_time` deadline set and the current time exceeds it, a single call
of `process_external_messages` sends `SubkernelError(Timeout)` to the
kernel-execution-engine channel and sets the state back to `Running`, without
any incoming packet, and regardless of the contents of the incoming message
queue (the deadline is checked before the queue). -/
theorem C3_deadline_before_queue
    (pmk : Manager → Message → List Nat → Manager × Except SubkError Unit)
    (now self_destination : Nat) (m : Manager) (mt id : Nat) (tags : List Nat)
    (hstate : m.session.kernel_state = KernelState.MsgAwait (some mt) id tags ∨
              m.session.kernel_state = KernelState.SubkernelAwaitFinish (some mt) id)
    (htime : now > mt) :
    process_external_messages pmk now self_destination m =
      { manager := { m with session := { m.session with kernel_state := .Running } },
        to_kernel := [.SubkernelError .Timeout], routed := [], result := .ok () } := by
  rcases hstate with h | h <;> simp [process_external_messages, h, htime]

/-- Witness for C3: a session whose `MsgAwait` deadline (50) is already past
(now = 100) while a matching message (id 1) is queued: the timeout is still
reported and the queued message left untouched. -/
theorem C3_witness :
    ((sample_manager (.MsgAwait (some 50) 1 [])).session.kernel_state =
        KernelState.MsgAwait (some 50) 1 [] ∨
      (sample_manager (.MsgAwait (some 50) 1 [])).session.kernel_state =
        KernelState.SubkernelAwaitFinish (some 50) 1) ∧
    100 > 50 ∧
    process_external_messages sample_pmk 100 0 (sample_manager (.MsgAwait (some 50) 1 [])) =
      { manager := { sample_manager (.MsgAwait (some 50) 1 []) with
                     session := { (sample_manager (.MsgAwait (some 50) 1 [])).session with
                                  kernel_state := .Running } },
        to_kernel := [.SubkernelError .Timeout], routed := [], result := .ok () } :=
  ⟨Or.inl rfl, by decide,
   C3_deadline_before_queue sample_pmk 100 0 (sample_manager (.MsgAwait (some 50) 1 []))
     50 1 [] (Or.inl rfl) (by decide)⟩

/-- Claim C5, counterexample: a `MonitorRequest` addressed locally
(`hop = 0`) performs its local operation (a `MonitorReply` is sent) but the
dispatcher does NOT set `self_destination` to the packet's destination field
(it stays 3, not the packet's 5). -/
theorem C5_counterexample :
    (fun _ _ => 0 : Nat → Nat → Nat) (AuxPacket.MonitorRequest 5 0 0).destination
        (sample_sat .Absent).rank = 0 ∧
    (process_aux_packet (fun _ _ => 0) sample_hw (sample_sat .Absent)
        (.MonitorRequest 5 0 0)).2 = [.Send (.MonitorReply sample_hw.mon_value)] ∧
    ¬ (process_aux_packet (fun _ _ => 0) sample_hw (sample_sat .Absent)
        (.MonitorRequest 5 0 0)).1.self_destination = 5 := by
  refine ⟨rfl, rfl, ?_⟩
  intro h
  simp [process_aux_packet, sample_sat, AuxPacket.destination] at h

/-- Claim C5 as amended: the dispatcher sets `self_destination` to the
packet's destination field only for locally addressed
`DestinationStatusRequest`, `DmaAddTraceRequest` and
`SubkernelAddDataRequest`; every other packet type (and every forwarded
packet) leaves `self_destination` unchanged. -/
theorem C5_self_destination_only_three_handlers (routing : Nat → Nat → Nat)
    (hw : HwInputs) (st : SatState) (p : AuxPacket) :
    (process_aux_packet routing hw st p).1.self_destination =
      if routing p.destination st.rank = 0 then
        match p with
        | .DestinationStatusRequest d => d
        | .DmaAddTraceRequest _ d _ _ _ _ => d
        | .SubkernelAddDataRequest d _ _ _ _ => d
        | _ => st.self_destination
      else st.self_destination := by
  cases p with
  | DestinationStatusRequest d =>
    by_cases h : routing d st.rank = 0 <;>
      simp_all [process_aux_packet, AuxPacket.destination]
  | MonitorRequest d c pr =>
    by_cases h : routing d st.rank = 0 <;>
      simp_all [process_aux_packet, AuxPacket.destination]
  | InjectionRequest d c o v =>
    by_cases h : routing d st.rank = 0 <;>
      simp_all [process_aux_packet, AuxPacket.destination]
  | DmaAddTraceRequest src d id status len trace =>
    by_cases h : routing d st.rank = 0 <;>
      simp_all [process_aux_packet, AuxPacket.destination]
  | DmaPlaybackRequest src d id ts =>
    by_cases h : routing d st.rank = 0 <;>
      by_cases hrun : st.kernel_manager.running = false <;>
        simp_all [process_aux_packet, AuxPacket.destination]
  | SubkernelAddDataRequest d id status len data =>
    by_cases h : routing d st.rank = 0 <;>
      simp_all [process_aux_packet, AuxPacket.destination]
  | SubkernelMessage src d id status len data =>
    by_cases h : routing d st.rank = 0 <;>
      simp_all [process_aux_packet, AuxPacket.destination]

/-- Claim C6: a locally addressed `DmaPlaybackRequest` arriving while a kernel
session is running (kernel_state neither Absent nor Loaded) is answered with
`DmaPlaybackReply succeeded = false` and the DMA manager's playback is not
invoked; playback is attempted only when no kernel is running. -/
theorem C6_playback_refused_while_kernel_running (routing : Nat → Nat → Nat)
    (hw : HwInputs) (st : SatState) (source destination id timestamp : Nat)
    (hlocal : routing destination st.rank = 0)
    (hrun : st.kernel_manager.running = true) :
    process_aux_packet routing hw st (.DmaPlaybackRequest source destination id timestamp) =
      (st, [.Send (.DmaPlaybackReply source false)]) ∧
    (∀ (routing2 : Nat → Nat → Nat) (hw2 : HwInputs) (st2 : SatState),
      AuxEvent.DmaManagerPlayback source id timestamp ∈
        (process_aux_packet routing2 hw2 st2
          (.DmaPlaybackRequest source destination id timestamp)).2 →
      st2.kernel_manager.running = false) := by
  constructor
  · simp [process_aux_packet, AuxPacket.destination, hlocal, hrun]
  · intro routing2 hw2 st2 hmem
    by_cases h : routing2 destination st2.rank = 0 <;>
      by_cases h2 : st2.kernel_manager.running = false <;>
        simp_all [process_aux_packet, AuxPacket.destination]

/-- Witness for C6: a satellite whose session is `Running`, receiving a
locally addressed `DmaPlaybackRequest`. -/
theorem C6_witness :
    (fun _ _ => 0 : Nat → Nat → Nat) 5 (sample_sat .Running).rank = 0 ∧
    (sample_sat .Running).kernel_manager.running = true ∧
    (process_aux_packet (fun _ _ => 0) sample_hw (sample_sat .Running)
        (.DmaPlaybackRequest 0 5 7 1000) =
      (sample_sat .Running, [.Send (.DmaPlaybackReply 0 false)]) ∧
    (∀ (routing2 : Nat → Nat → Nat) (hw2 : HwInputs) (st2 : SatState),
      AuxEvent.DmaManagerPlayback 0 7 1000 ∈
        (process_aux_packet routing2 hw2 st2 (.DmaPlaybackRequest 0 5 7 1000)).2 →
      st2.kernel_manager.running = false)) :=
  ⟨rfl, rfl,
   C6_playback_refused_while_kernel_running (fun _ _ => 0) sample_hw (sample_sat .Running)
     0 5 7 1000 rfl rfl⟩

/-- Claim C9: when no kernel session is running, `message_handle_incoming`
leaves the whole manager unchanged (the incoming `SubkernelMessage` chunk is
discarded), yet the dispatcher still sends `SubkernelMessageAck` back to the
sender. -/
theorem C9_dropped_message_still_acked (routing : Nat → Nat → Nat) (hw : HwInputs)
    (st : SatState) (source destination id : Nat) (status : PayloadStatus)
    (length : Nat) (data : List Nat)
    (hlocal : routing destination st.rank = 0)
    (hnorun : st.kernel_manager.running = false) :
    st.kernel_manager.message_handle_incoming status id length data = st.kernel_manager ∧
    process_aux_packet routing hw st (.SubkernelMessage source destination id status length data) =
      (st, [.Send (.SubkernelMessageAck source)]) := by
  have hm : st.kernel_manager.message_handle_incoming status id length data =
      st.kernel_manager := by
    simp [Manager.message_handle_incoming, hnorun]
  refine ⟨hm, ?_⟩
  simp [process_aux_packet, AuxPacket.destination, hlocal, hm]

/-- Witness for C9: satellite with no kernel loaded (`Absent`) receiving a
locally addressed `SubkernelMessage` chunk. -/
theorem C9_witness :
    (fun _ _ => 0 : Nat → Nat → Nat) 5 (sample_sat .Absent).rank = 0 ∧
    (sample_sat .Absent).kernel_manager.running = false ∧
    ((sample_sat .Absent).kernel_manager.message_handle_incoming .Only 7 2 [1, 9] =
        (sample_sat .Absent).kernel_manager ∧
      process_aux_packet (fun _ _ => 0) sample_hw (sample_sat .Absent)
          (.SubkernelMessage 0 5 7 .Only 2 [1, 9]) =
        (sample_sat .Absent, [.Send (.SubkernelMessageAck 0)])) :=
  ⟨rfl, rfl,
   C9_dropped_message_still_acked (fun _ _ => 0) sample_hw (sample_sat .Absent)
     0 5 7 .Only 2 [1, 9] rfl rfl⟩

/-- Claim C7, counterexample: `aux_transact` is NOT guarded by one mutex per
link — the locks taken for two different links (0 and 1) are the same single
static `AUX_MUTEX`, so transactions on different links do not proceed
independently. -/
theorem C7_counterexample :
    ¬ (∀ l1 l2 : Nat, l1 ≠ l2 → aux_transact_lock l1 ≠ aux_transact_lock l2) := by
  intro h
  exact h 0 1 (by decide) rfl

/-- Claim C7 as amended: every `aux_transact`, on every link, acquires the one
global `AUX_MUTEX`; hence any two in-flight aux transactions — on any links —
are held by the same task, i.e. at most one synchronous request is
outstanding at a time across all links. -/
theorem C7_single_global_mutex (st : MutexState) (t1 t2 l1 l2 : Nat)
    (h1 : st (aux_transact_lock l1) = some t1)
    (h2 : st (aux_transact_lock l2) = some t2) :
    aux_transact_lock l1 = aux_transact_lock l2 ∧ t1 = t2 := by
  refine ⟨rfl, ?_⟩
  have h := h1.symm.trans h2
  exact Option.some_injective _ h

/-- Witness for C7 amended: a state where task 7 holds the mutex, observed
via links 0 and 1. -/
theorem C7_witness :
    (fun _ => some 7 : MutexState) (aux_transact_lock 0) = some 7 ∧
    (fun _ => some 7 : MutexState) (aux_transact_lock 1) = some 7 ∧
    (aux_transact_lock 0 = aux_transact_lock 1 ∧ 7 = 7) :=
  ⟨rfl, rfl, C7_single_global_mutex (fun _ => some 7) 7 7 0 1 rfl rfl⟩

/-- Claim C10: for empty input data, `partition_data` performs zero
transactions and the loop completes successfully (`some []` : no chunk is
ever produced, hence no aux transaction and no packet); consequently
`subkernel_send_message` and `ddma_upload_trace` transmit no packet at all
for a zero-length payload. -/
theorem C10_empty_payload_no_transactions :
    (∀ M : Nat, partition_data M [] = some []) ∧
    (∀ M md d id : Nat, subkernel_send_message_packets M md d id [] = some []) ∧
    (∀ M md d id : Nat, ddma_upload_trace_packets M md d id [] = some []) :=
  ⟨fun _ => rfl, fun _ _ _ _ => rfl, fun _ _ _ _ => rfl⟩

theorem partition_go_nil (M fuel : Nat) (first : Bool) :
    partition_go M fuel first [] = some [] := by
  cases fuel <;> simp [partition_go]

theorem kernels_get_insert (ks : Kernels) (id : Nat) (v : KernelLibrary) :
    kernels_get (kernels_insert ks id v) id = some v := by
  simp [kernels_insert, kernels_get]

theorem manager_add_first (ks : Kernels) (id : Nat) (status : PayloadStatus)
    (slice : List Nat) (len : Nat) (hf : status.is_first = true) :
    kernels_get (manager_add ks id status slice len) id =
      some { library := slice.take len, complete := status.is_last } := by
  unfold manager_add
  cases hget : kernels_get ks id with
  | none => simp [hget, kernels_get_insert]
  | some kernel => simp [hget, hf, kernels_get_insert]

theorem manager_add_middle (ks : Kernels) (id : Nat) (status : PayloadStatus)
    (slice : List Nat) (len : Nat) (acc : List Nat) (hf : status.is_first = false)
    (hget : kernels_get ks id = some { library := acc, complete := false }) :
    kernels_get (manager_add ks id status slice len) id =
      some { library := acc ++ slice.take len, complete := status.is_last } := by
  unfold manager_add
  simp [hget, hf, kernels_get_insert]

theorem partition_go_cons (M fuel : Nat) (first : Bool) (data : List Nat) (hd : data ≠ []) :
    partition_go M (fuel + 1) first data =
      match partition_go M fuel false
          (data.drop (if M < data.length then M else data.length)) with
      | none => none
      | some rest =>
        some ((data.take (if M < data.length then M else data.length) ++
                List.replicate (M - (if M < data.length then M else data.length)) 0,
               PayloadStatus.from_status first
                 (decide ((if M < data.length then M else data.length) = data.length)),
               if M < data.length then M else data.length) :: rest) := by
  have hne : data.isEmpty = false := by simp [hd]
  simp only [partition_go, hne]
  rfl

theorem take_padded (data : List Nat) (len k : Nat) (h : len ≤ data.length) :
    (data.take len ++ List.replicate k 0).take len = data.take len := by
  rw [List.take_append_of_le_length]
  · simp [Nat.min_eq_left h]
  · simp [Nat.min_eq_left h]

theorem partition_go_some_reassemble (M : Nat) (hM : 0 < M) :
    ∀ (fuel : Nat) (data : List Nat) (first : Bool), data.length ≤ fuel →
      ∃ chunks, partition_go M fuel first data = some chunks ∧ reassemble chunks = data := by
  intro fuel
  induction fuel with
  | zero =>
    intro data first hlen
    have hd : data = [] := List.length_eq_zero.mp (Nat.le_zero.mp hlen)
    subst hd
    exact ⟨[], partition_go_nil M 0 first, rfl⟩
  | succ fuel ih =>
    intro data first hlen
    by_cases hd : data = []
    · subst hd
      exact ⟨[], partition_go_nil M (fuel + 1) first, rfl⟩
    · have hpos : 0 < data.length := List.length_pos.mpr hd
      have hlen1 : 1 ≤ (if M < data.length then M else data.length) := by
        split
        · exact hM
        · exact hpos
      have hlenle : (if M < data.length then M else data.length) ≤ data.length := by
        split
        · omega
        · exact Nat.le_refl _
      have hdrop : (data.drop (if M < data.length then M else data.length)).length ≤ fuel := by
        simp only [List.length_drop]
        omega
      obtain ⟨rest, hrest, hre⟩ := ih (data.drop (if M < data.length then M else data.length))
        false hdrop
      refine ⟨_, by rw [partition_go_cons M fuel first data hd, hrest], ?_⟩
      simp only [reassemble, List.map_cons, List.flatten_cons]
      rw [take_padded data _ _ hlenle]
      rw [show ((rest.map fun c => c.1.take c.2.2).flatten) = reassemble rest from rfl, hre]
      exact List.take_append_drop _ data

theorem add_all_cons (ks : Kernels) (id : Nat) (c : List Nat × PayloadStatus × Nat)
    (rest : List (List Nat × PayloadStatus × Nat)) :
    add_all ks id (c :: rest) = add_all (manager_add ks id c.2.1 c.1 c.2.2) id rest := rfl

theorem add_all_middle_chain (M : Nat) (hM : 0 < M) :
    ∀ (fuel : Nat) (data : List Nat) (chunks : List (List Nat × PayloadStatus × Nat)),
      data.length ≤ fuel → data ≠ [] →
      partition_go M fuel false data = some chunks →
      ∀ (ks : Kernels) (id : Nat) (acc : List Nat),
        kernels_get ks id = some { library := acc, complete := false } →
        kernels_get (add_all ks id chunks) id =
          some { library := acc ++ data, complete := true } := by
  intro fuel
  induction fuel with
  | zero =>
    intro data chunks hlen hd
    exact absurd (List.length_eq_zero.mp (Nat.le_zero.mp hlen)) hd
  | succ fuel ih =>
    intro data chunks hlen hd hp ks id acc hget
    rw [partition_go_cons M fuel false data hd] at hp
    by_cases hM2 : M < data.length
    · simp only [if_pos hM2, decide_eq_false (by omega : ¬ (M = data.length)),
                 PayloadStatus.from_status] at hp
      cases hrec : partition_go M fuel false (data.drop M) with
      | none => rw [hrec] at hp; exact absurd hp (by simp)
      | some rest =>
        rw [hrec] at hp
        have hchunks : chunks =
            (data.take M ++ List.replicate (M - M) 0, PayloadStatus.Middle, M) :: rest := by
          exact (Option.some_injective _ hp).symm
        subst hchunks
        rw [add_all_cons]
        have hmid := manager_add_middle ks id .Middle
          (data.take M ++ List.replicate (M - M) 0) M acc rfl hget
        rw [take_padded data M (M - M) (Nat.le_of_lt hM2)] at hmid
        have hdrop_ne : data.drop M ≠ [] := by
          intro h
          have := List.length_drop M data -- placeholder
          rw [h] at this
          simp at this
          omega
        have hfinal := ih (data.drop M) rest (by simp [List.length_drop]; omega) hdrop_ne hrec
          (manager_add ks id .Middle (data.take M ++ List.replicate (M - M) 0) M) id
          (acc ++ data.take M) hmid
        rw [hfinal]
        rw [List.append_assoc, List.take_append_drop]
    · simp only [if_neg hM2, decide_eq_true (rfl : data.length = data.length),
                 PayloadStatus.from_status] at hp
      rw [List.drop_length, partition_go_nil] at hp
      have hchunks : chunks =
          [(data.take data.length ++ List.replicate (M - data.length) 0,
            PayloadStatus.Last, data.length)] := by
        exact (Option.some_injective _ hp).symm
      subst hchunks
      rw [add_all_cons]
      dsimp only [add_all, List.foldl]
      rw [manager_add_middle ks id .Last
            (data.take data.length ++ List.replicate (M - data.length) 0) data.length acc rfl
            hget,
          take_padded data data.length (M - data.length) (Nat.le_refl _)]
      simp [PayloadStatus.is_last]

theorem add_all_partition_first (M : Nat) (hM : 0 < M) (fuel : Nat) (data : List Nat)
    (chunks : List (List Nat × PayloadStatus × Nat)) (hlen : data.length ≤ fuel)
    (hd : data ≠ []) (hp : partition_go M fuel true data = some chunks)
    (ks : Kernels) (id : Nat) :
    kernels_get (add_all ks id chunks) id = some { library := data, complete := true } := by
  cases fuel with
  | zero => exact absurd (List.length_eq_zero.mp (Nat.le_zero.mp hlen)) hd
  | succ fuel =>
    rw [partition_go_cons M fuel true data hd] at hp
    by_cases hM2 : M < data.length
    · simp only [if_pos hM2, decide_eq_false (by omega : ¬ (M = data.length)),
                 PayloadStatus.from_status] at hp
      cases hrec : partition_go M fuel false (data.drop M) with
      | none => rw [hrec] at hp; exact absurd hp (by simp)
      | some rest =>
        rw [hrec] at hp
        have hchunks : chunks =
            (data.take M ++ List.replicate (M - M) 0, PayloadStatus.First, M) :: rest :=
          (Option.some_injective _ hp).symm
        subst hchunks
        rw [add_all_cons]
        have hfirst := manager_add_first ks id .First
          (data.take M ++ List.replicate (M - M) 0) M rfl
        rw [take_padded data M (M - M) (Nat.le_of_lt hM2)] at hfirst
        have hdrop_ne : data.drop M ≠ [] := by
          intro h
          have h2 : (data.drop M).length = 0 := by rw [h]; rfl
          rw [List.length_drop] at h2
          omega
        have hfinal := add_all_middle_chain M hM fuel (data.drop M) rest
          (by simp [List.length_drop]; omega) hdrop_ne hrec
          (manager_add ks id .First (data.take M ++ List.replicate (M - M) 0) M) id
          (data.take M) hfirst
        rw [hfinal, List.take_append_drop]
    · simp only [if_neg hM2, decide_eq_true (rfl : data.length = data.length),
                 PayloadStatus.from_status] at hp
      rw [List.drop_length, partition_go_nil] at hp
      have hchunks : chunks =
          [(data.take data.length ++ List.replicate (M - data.length) 0,
            PayloadStatus.Only, data.length)] :=
        (Option.some_injective _ hp).symm
      subst hchunks
      rw [add_all_cons]
      dsimp only [add_all, List.foldl]
      rw [manager_add_first ks id .Only
            (data.take data.length ++ List.replicate (M - data.length) 0) data.length rfl,
          take_padded data data.length (M - data.length) (Nat.le_refl _)]
      simp [PayloadStatus.is_last]

/-- Claim C4: splitting any byte sequence with `partition_data` into
`M`-sized chunks tagged first/middle/last/only and reassembling on the
receiver by appending each chunk's first `len` bytes in order — as
`Manager::add` does for subkernel binaries — yields exactly the original
sequence, whether or not the length is an exact multiple of the chunk size. -/
theorem C4_partition_roundtrip (M : Nat) (data : List Nat) (hM : 0 < M) :
    ∃ chunks, partition_data M data = some chunks ∧
      reassemble chunks = data ∧
      (data ≠ [] → ∀ (ks : Kernels) (id : Nat),
        kernels_get (add_all ks id chunks) id =
          some { library := data, complete := true }) := by
  obtain ⟨chunks, hp, hre⟩ :=
    partition_go_some_reassemble M hM data.length data true (Nat.le_refl _)
  exact ⟨chunks, hp, hre, fun hd ks id =>
    add_all_partition_first M hM data.length data chunks (Nat.le_refl _) hd hp ks id⟩

/-- Witness for C4: chunk size 4 with a 9-byte payload (remainder 1). -/
theorem C4_witness :
    0 < 4 ∧
    ∃ chunks, partition_data 4 [1, 2, 3, 4, 5, 6, 7, 8, 9] = some chunks ∧
      reassemble chunks = [1, 2, 3, 4, 5, 6, 7, 8, 9] ∧
      (([1, 2, 3, 4, 5, 6, 7, 8, 9] : List Nat) ≠ [] → ∀ (ks : Kernels) (id : Nat),
        kernels_get (add_all ks id chunks) id =
          some { library := [1, 2, 3, 4, 5, 6, 7, 8, 9], complete := true }) :=
  ⟨by decide, C4_partition_roundtrip 4 [1, 2, 3, 4, 5, 6, 7, 8, 9] (by decide)⟩
